import Mathlib

/-!
Shallow embedding of the portfolio AI agent backend (`main.py`): the resume
lookup tool, the contact-request tool, the tool registry and schema, and the
`/api/chat` orchestrator. External effects (the completion API, JSON
parsing/serialization, SMTP, the resume file) are passed in as explicit
function parameters; everything else is translated directly from the source.
-/

namespace PortfolioAgent

/-- Python substring test `needle in hay`, at the character-list level:
`charsHavePfx n h` checks that `n` occurs at the start of `h`. -/
def charsHavePfx : List Char → List Char → Bool
  | [], _ => true
  | _ :: _, [] => false
  | a :: as, b :: bs => a = b && charsHavePfx as bs

/-- `charsContain n h` is Python `n in h` for strings: `n` occurs as a
contiguous run somewhere in `h` (the empty needle always occurs). -/
def charsContain (needle : List Char) : List Char → Bool
  | [] => charsHavePfx needle []
  | c :: rest => charsHavePfx needle (c :: rest) || charsContain needle rest

/-- Python `needle in hay` on strings. -/
def strIn (needle hay : String) : Bool :=
  charsContain needle.data hay.data

/-- Python `s.lower()`: lowercase each character (the resume data and
queries are ASCII, where `Char.toLower` agrees with Python). -/
def strLower (s : String) : String :=
  ⟨s.data.map Char.toLower⟩

/-- Message model from `main.py` (pydantic `Message`): a role and a content. -/
structure Message where
  role : String
  content : String
deriving DecidableEq

/-- Request body of `/api/chat` (pydantic `ChatRequest`). -/
structure ChatRequest where
  messages : List Message
  session_id : Option String
deriving DecidableEq

/-- Response body of `/api/chat` (pydantic `ChatResponse`). -/
structure ChatResponse where
  message : Message
  session_id : String
deriving DecidableEq

/-- One entry of `Resume_Info["personal_projects"]`: a JSON object with a
`title` field; the remaining fields are kept abstractly as key/value pairs. -/
structure Project where
  title : String
  extra : List (String × String)
deriving DecidableEq

/-- One entry of `Resume_Info["work_experience"]`: a JSON object with
`company` and `title` fields plus remaining fields. -/
structure Job where
  company : String
  title : String
  extra : List (String × String)
deriving DecidableEq

/-- The resume store loaded from `resume_info.json`. The two sections are
optional because the source reads them with `Resume_Info.get(key, [])`;
the empty dict (missing file) has both fields absent. -/
structure ResumeInfo where
  personal_projects : Option (List Project)
  work_experience : Option (List Job)
deriving DecidableEq

/-- Possible returns of `get_project_details`: the matched project dict, the
matched work-experience dict, or the not-found status object. -/
inductive ProjectDetails where
  | project (p : Project)
  | job (j : Job)
  | notFound (message : String)
deriving DecidableEq

/-- A Python `for`-loop that returns the first element satisfying `pred`
(and `None` when none does), as used twice in `get_project_details`. -/
def firstMatch {α : Type} (pred : α → Bool) : List α → Option α
  | [] => none
  | x :: rest => if pred x then some x else firstMatch pred rest

/-- Loop test for personal projects: `project_name in project["title"].lower()`
(the needle is already lowercased by the caller). -/
def projectMatches (pn : String) (p : Project) : Bool :=
  strIn pn (strLower p.title)

/-- Loop test for work experience:
`project_name in job["company"].lower() or project_name in job["title"].lower()`. -/
def jobMatches (pn : String) (j : Job) : Bool :=
  strIn pn (strLower j.company) || strIn pn (strLower j.title)

/-- `get_project_details` from `main.py`: lowercase the query, scan
`personal_projects` then `work_experience` for the first case-insensitive
substring match, and fall back to a not-found status object. -/
def get_project_details (resume : ResumeInfo) (project_name : String) : ProjectDetails :=
  let pn := strLower project_name
  match firstMatch (projectMatches pn) (resume.personal_projects.getD []) with
  | some project => .project project
  | none =>
    match firstMatch (jobMatches pn) (resume.work_experience.getD []) with
    | some job => .job job
    | none =>
      .notFound ("Could not find detailed information for a project named \x27" ++ pn ++
        "\x27. Please try another name.")

/-- The email handed to `server.send_message` in `submit_contact_request`.
Sender and recipient are `os.getenv` results, hence optional. -/
structure MailMessage where
  subject : String
  body : String
  from_addr : Option String
  to_addr : Option String
deriving DecidableEq

/-- The triple-quoted f-string body composed in `submit_contact_request`
(the timestamp is passed in, standing for `datetime.now().strftime(...)`). -/
def contactBody (name email message now : String) : String :=
  "\n    You received a new contact request:\n\n    Name: " ++ name ++
  "\n    Email: " ++ email ++ "\n    Message:\n    " ++ message ++
  "\n\n    Sent at: " ++ now ++ "\n    "

/-- `submit_contact_request` from `main.py`. `smtpSend` stands for the
`with smtplib.SMTP(...)` block (starttls, login with the two credentials,
send); an `Except.error` is the raised exception the `except` clause
catches. The function itself is total: every outcome is a status dict. -/
def submit_contact_request
    (smtpSend : Option String → Option String → MailMessage → Except String Unit)
    (myEmail myPassword otherEmail : Option String) (now : String)
    (name email message : String) : List (String × String) :=
  let subject := "New Contact Request from " ++ name
  let body := contactBody name email message now
  let msg : MailMessage := ⟨subject, body, myEmail, otherEmail⟩
  match smtpSend myEmail myPassword msg with
  | .error _ =>
    [("status", "error"),
     ("message", "There was an issue sending your message. Please try again later.")]
  | .ok _ =>
    [("status", "success"),
     ("message", "Thank you, " ++ name ++ "! Your message has been submitted. " ++
       "Arian will get back to you at " ++ email ++ " soon.")]

/-- The startup `try/except FileNotFoundError` around `resume_info.json`:
`fileContents` is `some r` when the file exists and parses to `r`, `none`
when it is missing; the missing case falls back to the empty dict. -/
def loadResumeInfo (fileContents : Option ResumeInfo) : ResumeInfo :=
  match fileContents with
  | some r => r
  | none => { personal_projects := none, work_experience := none }

/-- A parsed tool-argument object (`json.loads` of the call arguments): a
JSON object whose values are strings, as both tools expect. The empty
object is `[]`. -/
abbrev ToolArgs : Type := List (String × String)

/-- A tool-call request emitted by the completion API
(`tool_call.id`, `tool_call.function.name`, `tool_call.function.arguments`). -/
structure ToolCall where
  id : String
  function_name : String
  arguments : String
deriving DecidableEq

/-- The assistant message of a completion response
(`response.choices[0].message`): its content and its tool calls
(the empty list stands for Python `None` or `[]`, both falsy). -/
structure AssistantMsg where
  content : String
  tool_calls : List ToolCall
deriving DecidableEq

/-- One entry of the `messages` list the orchestrator builds: a plain
role/content dict, the assistant tool-calling message object appended
verbatim, or a tool-result dict with `role: "tool"`. -/
inductive TranscriptMsg where
  | simple (role content : String)
  | assistant (m : AssistantMsg)
  | tool (tool_call_id name content : String)
deriving DecidableEq

/-- One call to `client.chat.completions.create`: the transcript it was
given and whether the `tools` schema was passed along. -/
structure CompletionCall where
  messages : List TranscriptMsg
  with_tools : Bool
deriving DecidableEq

/-- The JSON-schema description of one tool function in the `tools` array
(name, description, parameter property names, required parameter names). -/
structure ToolSchemaFunction where
  name : String
  description : String
  param_properties : List String
  required : List String
deriving DecidableEq

/-- One entry of the `tools` array: `{"type": "function", "function": ...}`. -/
structure ToolSchemaEntry where
  type : String
  function : ToolSchemaFunction
deriving DecidableEq

/-- The static `tools` schema array from `main.py`. -/
def tools : List ToolSchemaEntry :=
  [⟨"function",
    ⟨"submit_contact_request",
     "Submits a contact request from a visitor to Arian. Requires the visitor\x27s name, email, and message.",
     ["name", "email", "message"],
     ["name", "email", "message"]⟩⟩,
   ⟨"function",
    ⟨"get_project_details",
     "Retrieves the full details (description, technologies, etc.) for a specific personal project or work experience item when asked.",
     ["project_name"],
     ["project_name"]⟩⟩]

/-- Tags for the two callables stored in `available_functions`. -/
inductive RegisteredTool where
  | submitContactRequest
  | getProjectDetails
deriving DecidableEq

/-- The `available_functions` dict from `main.py`: tool name to callable. -/
def available_functions : List (String × RegisteredTool) :=
  [("submit_contact_request", RegisteredTool.submitContactRequest),
   ("get_project_details", RegisteredTool.getProjectDetails)]

/-- Values a registered tool can return: `submit_contact_request` returns a
string-to-string dict, `get_project_details` a `ProjectDetails`. -/
inductive ToolResult where
  | mapResult (m : List (String × String))
  | detailsResult (d : ProjectDetails)
deriving DecidableEq

/-- Python `f(**args)` keyword binding rejects unexpected keywords: every
key of `args` must be a declared parameter of the callable. -/
def noExtraKeys (args : ToolArgs) (params : List String) : Bool :=
  (args : List (String × String)).all (fun kv => params.contains kv.1)

/-- Calling `available_functions[name](**function_args)`: Python binds the
argument dict against the callable signature, raising `TypeError`
(an `Except.error` here) when a required positional parameter is missing
or an unexpected keyword is present; otherwise the tool body runs. -/
def invokeRegistered
    (smtpSend : Option String → Option String → MailMessage → Except String Unit)
    (myEmail myPassword otherEmail : Option String) (now : String)
    (resume : ResumeInfo) : RegisteredTool → ToolArgs → Except String ToolResult
  | RegisteredTool.submitContactRequest, args =>
    match noExtraKeys args ["name", "email", "message"],
        List.lookup "name" args, List.lookup "email" args, List.lookup "message" args with
    | true, some n, some e, some m =>
      .ok (.mapResult (submit_contact_request smtpSend myEmail myPassword otherEmail now n e m))
    | _, _, _, _ => .error "TypeError"
  | RegisteredTool.getProjectDetails, args =>
    match noExtraKeys args ["project_name"], List.lookup "project_name" args with
    | true, some p => .ok (.detailsResult (get_project_details resume p))
    | _, _ => .error "TypeError"

/-- The concrete dispatch table the orchestrator uses: a dict lookup in
`available_functions` (a missing name is Python `KeyError`, modelled as
`none`), yielding the bound callable. -/
def availableFunctionsImpl
    (smtpSend : Option String → Option String → MailMessage → Except String Unit)
    (myEmail myPassword otherEmail : Option String) (now : String)
    (resume : ResumeInfo) : String → Option (ToolArgs → Except String ToolResult) :=
  fun name =>
    (List.lookup name available_functions).map
      (fun t args => invokeRegistered smtpSend myEmail myPassword otherEmail now resume t args)

/-- `request.session_id if request.session_id else "default"`: Python
truthiness, so both `None` and the empty string fall back to `"default"`. -/
def sessionIdToReturn : Option String → String
  | none => "default"
  | some s => if s = "" then "default" else s

/-- The transcript assembled before the first completion call: the system
prompt followed by the request messages copied over as role/content dicts. -/
def initialTranscript (systemPrompt : String) (request : ChatRequest) : List TranscriptMsg :=
  TranscriptMsg.simple "system" systemPrompt ::
    request.messages.map (fun m => TranscriptMsg.simple m.role m.content)

/-- The body of the tool-dispatch loop for one call: parse the arguments
(`json.loads`, substituting the empty dict on `JSONDecodeError`), look the
function up by name (a miss is `KeyError`), invoke it, and serialize the
result with `json.dumps`. Returns the tool-message content, or the
propagated exception. -/
def dispatchOne {ρ : Type}
    (af : String → Option (ToolArgs → Except String ρ))
    (jsonLoads : String → Option ToolArgs) (jsonDumps : ρ → String)
    (tc : ToolCall) : Except String String :=
  let function_args := (jsonLoads tc.arguments).getD []
  match af tc.function_name with
  | none => .error "KeyError"
  | some f =>
    match f function_args with
    | .error e => .error e
    | .ok r => .ok (jsonDumps r)

/-- The content `dispatchOne` produces when it succeeds (empty on failure);
used to state what each appended tool message carries. -/
def dispatchContent {ρ : Type}
    (af : String → Option (ToolArgs → Except String ρ))
    (jsonLoads : String → Option ToolArgs) (jsonDumps : ρ → String)
    (tc : ToolCall) : String :=
  match dispatchOne af jsonLoads jsonDumps tc with
  | .ok s => s
  | .error _ => ""

/-- The `for tool_call in assistant_message.tool_calls` loop: appends one
tool-role message per call to the running transcript, stopping with the
exception if a dispatch raises. -/
def toolDispatchLoop {ρ : Type}
    (af : String → Option (ToolArgs → Except String ρ))
    (jsonLoads : String → Option ToolArgs) (jsonDumps : ρ → String) :
    List TranscriptMsg → List ToolCall → Except String (List TranscriptMsg)
  | msgs, [] => .ok msgs
  | msgs, tc :: rest =>
    match dispatchOne af jsonLoads jsonDumps tc with
    | .error e => .error e
    | .ok content =>
      toolDispatchLoop af jsonLoads jsonDumps
        (msgs ++ [TranscriptMsg.tool tc.id tc.function_name content]) rest

/-- The body of the `/api/chat` handler inside its `try`: assemble the
transcript, run the first completion (with the tool schema), dispatch any
tool calls, run the second completion (without the schema), and build the
response. Alongside the result it returns the list of completion calls
issued, so the transcript each round received is observable. An
`Except.error` is an exception reaching the handler`s `except` clause. -/
def chat {ρ : Type}
    (complete : List TranscriptMsg → Bool → AssistantMsg)
    (af : String → Option (ToolArgs → Except String ρ))
    (jsonLoads : String → Option ToolArgs) (jsonDumps : ρ → String)
    (systemPrompt : String) (request : ChatRequest) :
    Except String ChatResponse × List CompletionCall :=
  let messages := initialTranscript systemPrompt request
  let assistant_message := complete messages true
  if assistant_message.tool_calls.isEmpty then
    (Except.ok ⟨⟨"assistant", assistant_message.content⟩, sessionIdToReturn request.session_id⟩,
     [⟨messages, true⟩])
  else
    match toolDispatchLoop af jsonLoads jsonDumps
        (messages ++ [TranscriptMsg.assistant assistant_message])
        assistant_message.tool_calls with
    | .error e => (.error e, [⟨messages, true⟩])
    | .ok messages2 =>
      let final_message := complete messages2 false
      (Except.ok ⟨⟨"assistant", final_message.content⟩, sessionIdToReturn request.session_id⟩,
       [⟨messages, true⟩, ⟨messages2, false⟩])

/-- The full handler including the `except Exception` clause, which maps
any exception to the generic HTTP 500 response. -/
def chatEndpoint {ρ : Type}
    (complete : List TranscriptMsg → Bool → AssistantMsg)
    (af : String → Option (ToolArgs → Except String ρ))
    (jsonLoads : String → Option ToolArgs) (jsonDumps : ρ → String)
    (systemPrompt : String) (request : ChatRequest) :
    Except (Nat × String) ChatResponse :=
  match (chat complete af jsonLoads jsonDumps systemPrompt request).1 with
  | .ok resp => .ok resp
  | .error _ =>
    .error (500, "An internal server error occurred. Please check the backend logs.")

/-! ### Concrete demonstration data, used to instantiate the theorems -/

def demoProject : Project := ⟨"Fantasy Draft Assistant", [("description", "an app")]⟩

def demoJob : Job := ⟨"Algoverse", "AI Research Intern", []⟩

def demoResume : ResumeInfo := ⟨some [demoProject], some [demoJob]⟩

/-- A completion oracle that requests one tool call in round one and none
in round two. -/
def demoComplete : List TranscriptMsg → Bool → AssistantMsg := fun _ withTools =>
  if withTools then ⟨"", [⟨"call_1", "toolA", "raw-args"⟩]⟩ else ⟨"done", []⟩

/-- A completion oracle that never requests tool calls. -/
def demoCompleteNoTools : List TranscriptMsg → Bool → AssistantMsg := fun _ _ => ⟨"ok", []⟩

/-- A completion oracle whose tool call names a registered tool but carries
a malformed JSON argument payload. -/
def demoCompleteBadArgs : List TranscriptMsg → Bool → AssistantMsg := fun _ withTools =>
  if withTools then ⟨"", [⟨"call_1", "get_project_details", "not json"⟩]⟩ else ⟨"done", []⟩

/-- A dispatch table in which every name resolves and every call succeeds. -/
def demoAf : String → Option (ToolArgs → Except String Nat) := fun _ => some (fun _ => Except.ok 7)

/-- A JSON argument parser that always yields the empty object. -/
def demoJl : String → Option ToolArgs := fun _ => some []

/-- A JSON argument parser that always fails (malformed payloads). -/
def demoJlFail : String → Option ToolArgs := fun _ => none

/-- A result serializer. -/
def demoJd : Nat → String := fun _ => "7"

def demoRequest : ChatRequest := ⟨[⟨"user", "hi"⟩], none⟩

/-! ### Helper lemmas about the string-containment primitives -/

lemma charsHavePfx_self_append (n t : List Char) : charsHavePfx n (n ++ t) = true := by
  induction n with
  | nil => rfl
  | cons a as ih => simp [charsHavePfx, ih]

lemma charsContain_of_charsHavePfx {n h : List Char} (hp : charsHavePfx n h = true) :
    charsContain n h = true := by
  cases h with
  | nil => simpa [charsContain] using hp
  | cons c t => simp [charsContain, hp]

lemma charsContain_cons {n t : List Char} (c : Char) (hc : charsContain n t = true) :
    charsContain n (c :: t) = true := by
  simp [charsContain, hc]

lemma charsContain_middle (n : List Char) :
    ∀ pre post : List Char, charsContain n (pre ++ n ++ post) = true := by
  intro pre
  induction pre with
  | nil =>
    intro post
    exact charsContain_of_charsHavePfx (charsHavePfx_self_append n post)
  | cons c cs ih =>
    intro post
    simpa using charsContain_cons c (ih post)

lemma charsContain_nil_left (h : List Char) : charsContain [] h = true := by
  cases h <;> rfl

/-- The empty string occurs in every string (Python `"" in s` is `True`). -/
lemma strIn_empty_left (s : String) : strIn "" s = true :=
  charsContain_nil_left s.data

/-- A string occurs in any string whose characters spell it out in the
middle. -/
lemma strIn_true_of_data (n s : String) (l₁ l₂ : List Char)
    (h : s.data = l₁ ++ n.data ++ l₂) : strIn n s = true := by
  rw [strIn, h]
  exact charsContain_middle n.data l₁ l₂

/-! ### Helper lemmas about `firstMatch` (first-match loop semantics) -/

lemma firstMatch_eq_none_iff {α : Type} (pred : α → Bool) (l : List α) :
    firstMatch pred l = none ↔ ∀ x ∈ l, pred x = false := by
  induction l with
  | nil => simp [firstMatch]
  | cons x rest ih =>
    by_cases hx : pred x = true
    · simp [firstMatch, hx]
    · simp only [Bool.not_eq_true] at hx
      simp [firstMatch, hx, ih]

lemma firstMatch_eq_some_iff {α : Type} (pred : α → Bool) (l : List α) (a : α) :
    firstMatch pred l = some a ↔
      ∃ l₁ l₂, l = l₁ ++ a :: l₂ ∧ pred a = true ∧ ∀ x ∈ l₁, pred x = false := by
  induction l with
  | nil => simp [firstMatch]
  | cons x rest ih =>
    by_cases hx : pred x = true
    · simp only [firstMatch, hx, if_true]
      constructor
      · rintro h
        injection h with h
        exact ⟨[], rest, by simp [h.symm], h ▸ hx, by simp⟩
      · rintro ⟨l₁, l₂, hl, ha, hnone⟩
        cases l₁ with
        | nil =>
          simp at hl
          simp [hl.1]
        | cons y ys =>
          simp at hl
          obtain ⟨rfl, -⟩ := hl
          have := hnone x (by simp)
          rw [this] at hx
          cases hx
    · simp only [Bool.not_eq_true] at hx
      simp only [firstMatch, hx, if_false, Bool.false_eq_true]
      rw [ih]
      constructor
      · rintro ⟨l₁, l₂, hl, ha, hnone⟩
        refine ⟨x :: l₁, l₂, by simp [hl], ha, ?_⟩
        intro y hy
        rcases List.mem_cons.mp hy with rfl | hy
        · exact hx
        · exact hnone y hy
      · rintro ⟨l₁, l₂, hl, ha, hnone⟩
        cases l₁ with
        | nil =>
          simp at hl
          obtain ⟨rfl, -⟩ := hl
          rw [ha] at hx
          cases hx
        | cons y ys =>
          simp at hl
          obtain ⟨rfl, hl⟩ := hl
          exact ⟨ys, l₂, hl, ha, fun z hz => hnone z (by simp [hz])⟩

/-! ### Helper lemmas about the tool-dispatch loop -/

lemma dispatchOne_eq_ok_dispatchContent {ρ : Type}
    (af : String → Option (ToolArgs → Except String ρ))
    (jsonLoads : String → Option ToolArgs) (jsonDumps : ρ → String)
    (tc : ToolCall) {s : String}
    (h : dispatchOne af jsonLoads jsonDumps tc = .ok s) :
    dispatchContent af jsonLoads jsonDumps tc = s := by
  simp [dispatchContent, h]

lemma toolDispatchLoop_ok {ρ : Type}
    (af : String → Option (ToolArgs → Except String ρ))
    (jsonLoads : String → Option ToolArgs) (jsonDumps : ρ → String) :
    ∀ (tcs : List ToolCall) (msgs : List TranscriptMsg),
      (∀ tc ∈ tcs, ∃ s, dispatchOne af jsonLoads jsonDumps tc = .ok s) →
      toolDispatchLoop af jsonLoads jsonDumps msgs tcs =
        .ok (msgs ++ tcs.map (fun tc =>
          TranscriptMsg.tool tc.id tc.function_name
            (dispatchContent af jsonLoads jsonDumps tc))) := by
  intro tcs
  induction tcs with
  | nil => intro msgs _; simp [toolDispatchLoop]
  | cons tc rest ih =>
    intro msgs hok
    obtain ⟨s, hs⟩ := hok tc (by simp)
    have hcontent := dispatchOne_eq_ok_dispatchContent af jsonLoads jsonDumps tc hs
    have hrest : ∀ t ∈ rest, ∃ s, dispatchOne af jsonLoads jsonDumps t = .ok s :=
      fun t ht => hok t (by simp [ht])
    simp only [toolDispatchLoop, hs, ih _ hrest, hcontent, List.map_cons]
    simp

/-! ### Characterization of `get_project_details` -/

lemma get_project_details_unfold (resume : ResumeInfo) (project_name : String) :
    get_project_details resume project_name =
      match firstMatch (projectMatches (strLower project_name)) (resume.personal_projects.getD []) with
      | some project => ProjectDetails.project project
      | none =>
        match firstMatch (jobMatches (strLower project_name)) (resume.work_experience.getD []) with
        | some job => ProjectDetails.job job
        | none =>
          ProjectDetails.notFound
            ("Could not find detailed information for a project named \x27" ++
              strLower project_name ++ "\x27. Please try another name.") := rfl

lemma gpd_eq_project_iff (resume : ResumeInfo) (project_name : String) (q : Project) :
    get_project_details resume project_name = ProjectDetails.project q ↔
      ∃ l₁ l₂, resume.personal_projects.getD [] = l₁ ++ q :: l₂ ∧
        projectMatches (strLower project_name) q = true ∧
        ∀ x ∈ l₁, projectMatches (strLower project_name) x = false := by
  rw [get_project_details_unfold, ← firstMatch_eq_some_iff]
  rcases h1 : firstMatch (projectMatches (strLower project_name))
      (resume.personal_projects.getD []) with _ | q1
  · rcases h2 : firstMatch (jobMatches (strLower project_name))
        (resume.work_experience.getD []) with _ | j1 <;> simp
  · simp

lemma gpd_eq_job_iff (resume : ResumeInfo) (project_name : String) (j : Job) :
    get_project_details resume project_name = ProjectDetails.job j ↔
      (∀ x ∈ resume.personal_projects.getD [],
        projectMatches (strLower project_name) x = false) ∧
      ∃ l₁ l₂, resume.work_experience.getD [] = l₁ ++ j :: l₂ ∧
        jobMatches (strLower project_name) j = true ∧
        ∀ x ∈ l₁, jobMatches (strLower project_name) x = false := by
  rw [get_project_details_unfold, ← firstMatch_eq_none_iff, ← firstMatch_eq_some_iff]
  rcases h1 : firstMatch (projectMatches (strLower project_name))
      (resume.personal_projects.getD []) with _ | q1
  · rcases h2 : firstMatch (jobMatches (strLower project_name))
        (resume.work_experience.getD []) with _ | j1 <;> simp [h2]
  · simp [h1]

lemma gpd_eq_notFound_iff (resume : ResumeInfo) (project_name : String) (m : String) :
    get_project_details resume project_name = ProjectDetails.notFound m ↔
      (∀ x ∈ resume.personal_projects.getD [],
        projectMatches (strLower project_name) x = false) ∧
      (∀ x ∈ resume.work_experience.getD [],
        jobMatches (strLower project_name) x = false) ∧
      m = "Could not find detailed information for a project named \x27" ++
        strLower project_name ++ "\x27. Please try another name." := by
  rw [get_project_details_unfold, ← firstMatch_eq_none_iff (projectMatches (strLower project_name)),
    ← firstMatch_eq_none_iff (jobMatches (strLower project_name))]
  rcases h1 : firstMatch (projectMatches (strLower project_name))
      (resume.personal_projects.getD []) with _ | q1
  · rcases h2 : firstMatch (jobMatches (strLower project_name))
        (resume.work_experience.getD []) with _ | j1
    · simp [eq_comm]
    · simp [h2]
  · simp [h1]

/-! ### Claim theorems -/

/-- C1: `get_project_details` lowercases its input, performs a
case-insensitive substring match against each personal project title in
sequence order and returns the first match; otherwise it matches against
each work-experience entry's company or title and returns the first match
(so a personal-project match is always preferred); otherwise it returns the
not-found status object. Being a total Lean function, it never raises. -/
theorem get_project_details_matching_spec (resume : ResumeInfo) (project_name : String) :
    (∀ q : Project, get_project_details resume project_name = ProjectDetails.project q ↔
      ∃ l₁ l₂, resume.personal_projects.getD [] = l₁ ++ q :: l₂ ∧
        projectMatches (strLower project_name) q = true ∧
        ∀ x ∈ l₁, projectMatches (strLower project_name) x = false) ∧
    (∀ j : Job, get_project_details resume project_name = ProjectDetails.job j ↔
      (∀ x ∈ resume.personal_projects.getD [],
        projectMatches (strLower project_name) x = false) ∧
      ∃ l₁ l₂, resume.work_experience.getD [] = l₁ ++ j :: l₂ ∧
        jobMatches (strLower project_name) j = true ∧
        ∀ x ∈ l₁, jobMatches (strLower project_name) x = false) ∧
    (∀ m : String, get_project_details resume project_name = ProjectDetails.notFound m ↔
      (∀ x ∈ resume.personal_projects.getD [],
        projectMatches (strLower project_name) x = false) ∧
      (∀ x ∈ resume.work_experience.getD [],
        jobMatches (strLower project_name) x = false) ∧
      m = "Could not find detailed information for a project named \x27" ++
        strLower project_name ++ "\x27. Please try another name.") :=
  ⟨fun q => gpd_eq_project_iff resume project_name q,
   fun j => gpd_eq_job_iff resume project_name j,
   fun m => gpd_eq_notFound_iff resume project_name m⟩

/-- Witness for C1 at a concrete resume and query. -/
theorem get_project_details_matching_spec_witness :
    (∃ l₁ l₂, demoResume.personal_projects.getD [] = l₁ ++ demoProject :: l₂ ∧
      projectMatches (strLower "fantasy draft") demoProject = true ∧
      ∀ x ∈ l₁, projectMatches (strLower "fantasy draft") x = false) ∧
    (get_project_details demoResume "zzz-nonexistent" =
      ProjectDetails.notFound
        ("Could not find detailed information for a project named \x27zzz-nonexistent\x27. " ++
          "Please try another name.")) :=
  ⟨((get_project_details_matching_spec demoResume "fantasy draft").1 demoProject).mp (by decide),
   ((get_project_details_matching_spec demoResume "zzz-nonexistent").2.2
      ("Could not find detailed information for a project named \x27zzz-nonexistent\x27. " ++
        "Please try another name.")).mpr ⟨by decide, by decide, by decide⟩⟩

/-- C10: on the empty query, `get_project_details` returns the first entry
of `personal_projects` whenever that list is non-empty, and the not-found
result is reachable exactly when both `personal_projects` and
`work_experience` are empty. -/
theorem get_project_details_empty_query (resume : ResumeInfo) :
    (∀ (q : Project) (l : List Project), resume.personal_projects.getD [] = q :: l →
      get_project_details resume "" = ProjectDetails.project q) ∧
    ((∃ m, get_project_details resume "" = ProjectDetails.notFound m) ↔
      resume.personal_projects.getD [] = [] ∧ resume.work_experience.getD [] = []) := by
  have hpm : ∀ x : Project, projectMatches (strLower "") x = true := by
    intro x
    have h0 : strLower "" = "" := rfl
    rw [projectMatches, h0]
    exact strIn_empty_left _
  have hjm : ∀ x : Job, jobMatches (strLower "") x = true := by
    intro x
    have h0 : strLower "" = "" := rfl
    rw [jobMatches, h0, strIn_empty_left]
    rfl
  constructor
  · intro q l hp
    exact (gpd_eq_project_iff resume "" q).mpr ⟨[], l, by simp [hp], hpm q, by simp⟩
  · constructor
    · rintro ⟨m, hm⟩
      obtain ⟨h1, h2, -⟩ := (gpd_eq_notFound_iff resume "" m).mp hm
      constructor
      · rcases hp : resume.personal_projects.getD [] with _ | ⟨q, l⟩
        · rfl
        · have := h1 q (by rw [hp]; simp)
          rw [hpm q] at this
          cases this
      · rcases hw : resume.work_experience.getD [] with _ | ⟨j, l⟩
        · rfl
        · have := h2 j (by rw [hw]; simp)
          rw [hjm j] at this
          cases this
    · rintro ⟨h1, h2⟩
      exact ⟨_, (gpd_eq_notFound_iff resume "" _).mpr
        ⟨by rw [h1]; simp, by rw [h2]; simp, rfl⟩⟩

/-- Witness for C10 at a concrete non-empty resume and the empty store. -/
theorem get_project_details_empty_query_witness :
    get_project_details demoResume "" = ProjectDetails.project demoProject ∧
    ∃ m, get_project_details (ResumeInfo.mk none none) "" = ProjectDetails.notFound m :=
  ⟨(get_project_details_empty_query demoResume).1 demoProject [] rfl,
   (get_project_details_empty_query (ResumeInfo.mk none none)).2.mpr ⟨rfl, rfl⟩⟩

/-- C7: a missing `resume_info.json` yields the empty store instead of a
startup failure, and every `get_project_details` call over that empty store
returns the not-found result. -/
theorem loadResumeInfo_missing_file (p : String) :
    loadResumeInfo none = ResumeInfo.mk none none ∧
    get_project_details (loadResumeInfo none) p =
      ProjectDetails.notFound
        ("Could not find detailed information for a project named \x27" ++
          strLower p ++ "\x27. Please try another name.") :=
  ⟨rfl, rfl⟩

/-- C8: the keys of the `available_functions` registry are exactly the
function names declared in the static `tools` schema, so every name the
schema offers resolves in dispatch. -/
theorem registry_schema_names_match :
    available_functions.map Prod.fst = tools.map (fun t => t.function.name) ∧
    (tools.map (fun t => t.function.name)).all
      (fun n => (List.lookup n available_functions).isSome) = true := by
  constructor <;> decide

/-- C5: `submit_contact_request` catches any mail-transport or
authentication failure and returns the structured error dict — it never
propagates the exception (it is a total function into status dicts) — and
on a successful send it returns the success dict whose message contains the
visitor's name and email. -/
theorem submit_contact_request_spec
    (smtpSend : Option String → Option String → MailMessage → Except String Unit)
    (myEmail myPassword otherEmail : Option String) (now name email message : String) :
    (∀ e, smtpSend myEmail myPassword
        ⟨"New Contact Request from " ++ name, contactBody name email message now,
          myEmail, otherEmail⟩ = Except.error e →
      submit_contact_request smtpSend myEmail myPassword otherEmail now name email message =
        [("status", "error"),
         ("message", "There was an issue sending your message. Please try again later.")]) ∧
    (smtpSend myEmail myPassword
        ⟨"New Contact Request from " ++ name, contactBody name email message now,
          myEmail, otherEmail⟩ = Except.ok () →
      ∃ m, submit_contact_request smtpSend myEmail myPassword otherEmail now name email message =
        [("status", "success"), ("message", m)] ∧
        strIn name m = true ∧ strIn email m = true) := by
  constructor
  · intro e he
    simp only [submit_contact_request, he]
  · intro hok
    refine ⟨"Thank you, " ++ name ++ "! Your message has been submitted. " ++
      "Arian will get back to you at " ++ email ++ " soon.", ?_, ?_, ?_⟩
    · simp only [submit_contact_request, hok]
    · refine strIn_true_of_data name _ "Thank you, ".data
        (("! Your message has been submitted. " ++
          "Arian will get back to you at " ++ email ++ " soon.").data) ?_
      simp [String.data_append, List.append_assoc]
    · refine strIn_true_of_data email _
        (("Thank you, " ++ name ++ "! Your message has been submitted. " ++
          "Arian will get back to you at ").data) (" soon.".data) ?_
      simp [String.data_append, List.append_assoc]

/-- Witness for C5: a failing and a succeeding transport at concrete inputs. -/
theorem submit_contact_request_spec_witness :
    (submit_contact_request (fun _ _ _ => Except.error "connection refused")
        (some "me@x.com") (some "pw") (some "you@x.com") "2026-10-12" "Ada" "ada@x.com" "hi" =
      [("status", "error"),
       ("message", "There was an issue sending your message. Please try again later.")]) ∧
    (∃ m, submit_contact_request (fun _ _ _ => Except.ok ())
        (some "me@x.com") (some "pw") (some "you@x.com") "2026-10-12" "Ada" "ada@x.com" "hi" =
      [("status", "success"), ("message", m)] ∧
      strIn "Ada" m = true ∧ strIn "ada@x.com" m = true) :=
  ⟨(submit_contact_request_spec (fun _ _ _ => Except.error "connection refused")
      (some "me@x.com") (some "pw") (some "you@x.com") "2026-10-12" "Ada" "ada@x.com" "hi").1
      "connection refused" rfl,
   (submit_contact_request_spec (fun _ _ _ => Except.ok ())
      (some "me@x.com") (some "pw") (some "you@x.com") "2026-10-12" "Ada" "ada@x.com" "hi").2 rfl⟩

end PortfolioAgent

namespace PortfolioAgent

lemma chat_unfold {ρ : Type}
    (complete : List TranscriptMsg → Bool → AssistantMsg)
    (af : String → Option (ToolArgs → Except String ρ))
    (jsonLoads : String → Option ToolArgs) (jsonDumps : ρ → String)
    (systemPrompt : String) (request : ChatRequest) :
    chat complete af jsonLoads jsonDumps systemPrompt request =
      if (complete (initialTranscript systemPrompt request) true).tool_calls.isEmpty then
        (Except.ok ⟨⟨"assistant",
            (complete (initialTranscript systemPrompt request) true).content⟩,
          sessionIdToReturn request.session_id⟩,
         [⟨initialTranscript systemPrompt request, true⟩])
      else
        match toolDispatchLoop af jsonLoads jsonDumps
            (initialTranscript systemPrompt request ++
              [TranscriptMsg.assistant (complete (initialTranscript systemPrompt request) true)])
            (complete (initialTranscript systemPrompt request) true).tool_calls with
        | .error e => (.error e, [⟨initialTranscript systemPrompt request, true⟩])
        | .ok messages2 =>
          (Except.ok ⟨⟨"assistant", (complete messages2 false).content⟩,
            sessionIdToReturn request.session_id⟩,
           [⟨initialTranscript systemPrompt request, true⟩, ⟨messages2, false⟩]) := rfl

/-- Every successful run of the handler returns the defaulted session id. -/
lemma chat_ok_session_id {ρ : Type}
    (complete : List TranscriptMsg → Bool → AssistantMsg)
    (af : String → Option (ToolArgs → Except String ρ))
    (jsonLoads : String → Option ToolArgs) (jsonDumps : ρ → String)
    (systemPrompt : String) (request : ChatRequest) (resp : ChatResponse)
    (h : (chat complete af jsonLoads jsonDumps systemPrompt request).1 = Except.ok resp) :
    resp.session_id = sessionIdToReturn request.session_id := by
  rw [chat_unfold] at h
  by_cases hc : (complete (initialTranscript systemPrompt request) true).tool_calls.isEmpty
  · rw [if_pos hc] at h
    simp only [Except.ok.injEq] at h
    rw [← h]
  · rw [if_neg hc] at h
    rcases htl : toolDispatchLoop af jsonLoads jsonDumps
        (initialTranscript systemPrompt request ++
          [TranscriptMsg.assistant (complete (initialTranscript systemPrompt request) true)])
        (complete (initialTranscript systemPrompt request) true).tool_calls with e | m2 <;>
      rw [htl] at h
    · simp at h
    · simp only [Except.ok.injEq] at h
      rw [← h]

/-- C6: the follow-up completion call is always issued without the tool
schema: a run issues either one completion call (with the schema) or two,
the second without it — tool use is capped at one round per request. -/
theorem chat_second_call_without_tools {ρ : Type}
    (complete : List TranscriptMsg → Bool → AssistantMsg)
    (af : String → Option (ToolArgs → Except String ρ))
    (jsonLoads : String → Option ToolArgs) (jsonDumps : ρ → String)
    (systemPrompt : String) (request : ChatRequest) :
    (chat complete af jsonLoads jsonDumps systemPrompt request).2.map
        CompletionCall.with_tools = [true] ∨
    (chat complete af jsonLoads jsonDumps systemPrompt request).2.map
        CompletionCall.with_tools = [true, false] := by
  rw [chat_unfold]
  by_cases hc : (complete (initialTranscript systemPrompt request) true).tool_calls.isEmpty
  · left
    rw [if_pos hc]
    rfl
  · rw [if_neg hc]
    rcases htl : toolDispatchLoop af jsonLoads jsonDumps
        (initialTranscript systemPrompt request ++
          [TranscriptMsg.assistant (complete (initialTranscript systemPrompt request) true)])
        (complete (initialTranscript systemPrompt request) true).tool_calls with e | m2 <;>
      simp only [htl]
    · left; rfl
    · right; rfl

/-- C2: when the first completion reports tool calls and every dispatch
succeeds, the transcript handed to the second completion is exactly the
first transcript, then the assistant's tool-calling message, then one
tool-role message per call in issue order, each carrying the originating
call's id, its function name, and the serialized tool result. -/
theorem chat_second_transcript {ρ : Type}
    (complete : List TranscriptMsg → Bool → AssistantMsg)
    (af : String → Option (ToolArgs → Except String ρ))
    (jsonLoads : String → Option ToolArgs) (jsonDumps : ρ → String)
    (systemPrompt : String) (request : ChatRequest)
    (hcalls : (complete (initialTranscript systemPrompt request) true).tool_calls ≠ [])
    (hok : ∀ tc ∈ (complete (initialTranscript systemPrompt request) true).tool_calls,
      ∃ s, dispatchOne af jsonLoads jsonDumps tc = Except.ok s) :
    (chat complete af jsonLoads jsonDumps systemPrompt request).2 =
      [⟨initialTranscript systemPrompt request, true⟩,
       ⟨initialTranscript systemPrompt request ++
          [TranscriptMsg.assistant (complete (initialTranscript systemPrompt request) true)] ++
          (complete (initialTranscript systemPrompt request) true).tool_calls.map
            (fun tc => TranscriptMsg.tool tc.id tc.function_name
              (dispatchContent af jsonLoads jsonDumps tc)),
        false⟩] ∧
    (∀ tc ∈ (complete (initialTranscript systemPrompt request) true).tool_calls,
      dispatchOne af jsonLoads jsonDumps tc =
        Except.ok (dispatchContent af jsonLoads jsonDumps tc)) := by
  have hc : (complete (initialTranscript systemPrompt request) true).tool_calls.isEmpty = false := by
    rcases hm : (complete (initialTranscript systemPrompt request) true).tool_calls with _ | ⟨t, ts⟩
    · exact absurd hm hcalls
    · rfl
  have hloop := toolDispatchLoop_ok af jsonLoads jsonDumps
    (complete (initialTranscript systemPrompt request) true).tool_calls
    (initialTranscript systemPrompt request ++
      [TranscriptMsg.assistant (complete (initialTranscript systemPrompt request) true)]) hok
  constructor
  · rw [chat_unfold, if_neg (by simp [hc]), hloop]
  · intro tc htc
    obtain ⟨s, hs⟩ := hok tc htc
    rw [hs, dispatchOne_eq_ok_dispatchContent af jsonLoads jsonDumps tc hs]

/-- Witness for C2 at concrete oracles and request. -/
theorem chat_second_transcript_witness :
    (chat demoComplete demoAf demoJl demoJd "sys" demoRequest).2 =
      [⟨initialTranscript "sys" demoRequest, true⟩,
       ⟨initialTranscript "sys" demoRequest ++
          [TranscriptMsg.assistant (demoComplete (initialTranscript "sys" demoRequest) true)] ++
          (demoComplete (initialTranscript "sys" demoRequest) true).tool_calls.map
            (fun tc => TranscriptMsg.tool tc.id tc.function_name
              (dispatchContent demoAf demoJl demoJd tc)),
        false⟩] :=
  (chat_second_transcript demoComplete demoAf demoJl demoJd "sys" demoRequest
    (by decide) (fun tc _ => ⟨"7", rfl⟩)).1

/-- C4 counterexample: a request that completes successfully with
`session_id` present but equal to the empty string gets back `"default"`,
not its own session id, so the claim as stated fails at this input. -/
theorem chat_session_id_counterexample :
    (chat demoCompleteNoTools (fun _ => (none : Option (ToolArgs → Except String Nat)))
        demoJl demoJd "sys" ⟨[], some ""⟩).1 =
      Except.ok ⟨⟨"assistant", "ok"⟩, "default"⟩ ∧ ("default" : String) ≠ "" :=
  ⟨rfl, by decide⟩

/-- C4 (amended): for every request that completes successfully, the
returned `session_id` equals the request's session id when one is present
and non-empty, and equals `"default"` when it is absent or empty (the
presence test is Python truthiness). -/
theorem chat_session_id_spec {ρ : Type}
    (complete : List TranscriptMsg → Bool → AssistantMsg)
    (af : String → Option (ToolArgs → Except String ρ))
    (jsonLoads : String → Option ToolArgs) (jsonDumps : ρ → String)
    (systemPrompt : String) (request : ChatRequest) (resp : ChatResponse)
    (h : (chat complete af jsonLoads jsonDumps systemPrompt request).1 = Except.ok resp) :
    (∀ s, request.session_id = some s → s ≠ "" → resp.session_id = s) ∧
    ((request.session_id = none ∨ request.session_id = some "") →
      resp.session_id = "default") := by
  have hmain := chat_ok_session_id complete af jsonLoads jsonDumps systemPrompt request resp h
  constructor
  · intro s hs hne
    rw [hmain, hs]
    simp [sessionIdToReturn, hne]
  · rintro (hs | hs) <;> rw [hmain, hs] <;> rfl

/-- Witness for C4 at a concrete request with a non-empty session id. -/
theorem chat_session_id_spec_witness :
    (ChatResponse.mk ⟨"assistant", "ok"⟩ "abc").session_id = "abc" :=
  (chat_session_id_spec demoCompleteNoTools
      (fun _ => (none : Option (ToolArgs → Except String Nat))) demoJl demoJd
      "sys" ⟨[], some "abc"⟩ ⟨⟨"assistant", "ok"⟩, "abc"⟩ rfl).1 "abc" rfl (by decide)

/-- C9: a present-but-empty session id is treated like an absent one: the
response's session id is the literal `"default"`. -/
theorem chat_empty_session_id {ρ : Type}
    (complete : List TranscriptMsg → Bool → AssistantMsg)
    (af : String → Option (ToolArgs → Except String ρ))
    (jsonLoads : String → Option ToolArgs) (jsonDumps : ρ → String)
    (systemPrompt : String) (msgs : List Message) (resp : ChatResponse)
    (h : (chat complete af jsonLoads jsonDumps systemPrompt ⟨msgs, some ""⟩).1 =
      Except.ok resp) :
    resp.session_id = "default" ∧ resp.session_id ≠ "" := by
  have hmain := chat_ok_session_id complete af jsonLoads jsonDumps systemPrompt
    ⟨msgs, some ""⟩ resp h
  have hdef : sessionIdToReturn (ChatRequest.mk msgs (some "")).session_id = "default" := rfl
  rw [hmain, hdef]
  exact ⟨rfl, by decide⟩

/-- Witness for C9 at a concrete request carrying the empty session id. -/
theorem chat_empty_session_id_witness :
    (ChatResponse.mk ⟨"assistant", "ok"⟩ "default").session_id = "default" ∧
    (ChatResponse.mk ⟨"assistant", "ok"⟩ "default").session_id ≠ "" :=
  chat_empty_session_id demoCompleteNoTools
    (fun _ => (none : Option (ToolArgs → Except String Nat))) demoJl demoJd
    "sys" [] ⟨⟨"assistant", "ok"⟩, "default"⟩ rfl

/-- C3 counterexample: a tool call with a malformed JSON argument payload
naming the registered tool `get_project_details` does not run to
completion — the empty argument set fails keyword binding (`TypeError`),
and the request aborts with the generic HTTP 500 error. -/
theorem malformed_args_counterexample :
    chatEndpoint demoCompleteBadArgs
        (availableFunctionsImpl (fun _ _ _ => Except.ok ()) none none none "now"
          (loadResumeInfo none))
        demoJlFail (fun _ => "serialized") "sys" ⟨[], none⟩ =
      Except.error (500, "An internal server error occurred. Please check the backend logs.") :=
  rfl

/-- C3 (amended): a malformed argument payload is itself recovered — the
empty argument object is substituted and the named tool's invocation is
attempted with it, succeeding or failing exactly as that call does — but
both registered tools have required parameters, so invoking either with the
empty argument set raises a missing-argument error. -/
theorem malformed_args_empty_call {ρ : Type}
    (af : String → Option (ToolArgs → Except String ρ))
    (jsonLoads : String → Option ToolArgs) (jsonDumps : ρ → String)
    (tc : ToolCall) (f : ToolArgs → Except String ρ)
    (hparse : jsonLoads tc.arguments = none)
    (hlookup : af tc.function_name = some f) :
    dispatchOne af jsonLoads jsonDumps tc =
      (match f [] with
       | Except.ok r => Except.ok (jsonDumps r)
       | Except.error e => Except.error e) ∧
    (∀ smtpSend myEmail myPassword otherEmail now resume t,
      ∃ e, invokeRegistered smtpSend myEmail myPassword otherEmail now resume t
        ([] : ToolArgs) = Except.error e) := by
  constructor
  · rw [dispatchOne, hparse]
    simp only [Option.getD_none, hlookup]
    rcases hfe : f [] with e | r <;> rfl
  · intro smtpSend myEmail myPassword otherEmail now resume t
    cases t
    · exact ⟨"TypeError", rfl⟩
    · exact ⟨"TypeError", rfl⟩

/-- Witness for C3 at a concrete tool call and dispatch table. -/
theorem malformed_args_empty_call_witness :
    dispatchOne demoAf demoJlFail demoJd ⟨"call_1", "toolA", "not json"⟩ =
      Except.ok "7" ∧
    ∃ e, invokeRegistered (fun _ _ _ => Except.ok ()) none none none "now"
      (loadResumeInfo none) RegisteredTool.getProjectDetails ([] : ToolArgs) =
        Except.error e :=
  ⟨(malformed_args_empty_call demoAf demoJlFail demoJd ⟨"call_1", "toolA", "not json"⟩
      (fun _ => Except.ok 7) rfl rfl).1,
   (malformed_args_empty_call demoAf demoJlFail demoJd ⟨"call_1", "toolA", "not json"⟩
      (fun _ => Except.ok 7) rfl rfl).2
      (fun _ _ _ => Except.ok ()) none none none "now" (loadResumeInfo none)
      RegisteredTool.getProjectDetails⟩

end PortfolioAgent
